import Mathlib

/-!
Verification model of the bitVistara web server (Go, `main.go`).

The embedding translates the server's `render` function, its
`authMiddleware`, and the route table registered in `main` into pure
Lean functions.  Path manipulation follows Go's `path/filepath` package
on a Unix separator (`/`): `goClean` is `filepath.Clean`, `goExt` is
`filepath.Ext`, `goIsAbs` is `filepath.IsAbs`, `goJoin` is
`filepath.Join`.  `listPre` and `isSubList` are `strings.HasPrefix` and
`strings.Contains` at the character level (all patterns involved are
ASCII, where byte-level and character-level matching coincide).

The `html/template` engine and the filesystem are external
collaborators of the repository, so they are abstracted as oracles in
`TemplWorld`: which files exist, which parse, and whether executing a
template (set) against a payload succeeds.  `ParseFiles` fails exactly
when a named file is missing or does not parse, which is all the
theorems below rely on.
-/

/-- Character-level `strings.HasPrefix` on lists: `listPre p l` is true
iff `p` is a prefix of `l`. -/
def listPre : List Char → List Char → Bool
  | [], _ => true
  | _ :: _, [] => false
  | a :: as, b :: bs => a == b && listPre as bs

/-- Character-level `strings.Contains`: `isSubList pat l` is true iff
`pat` occurs contiguously inside `l`. -/
def isSubList (pat : List Char) : List Char → Bool
  | [] => listPre pat []
  | c :: tl => listPre pat (c :: tl) || isSubList pat tl

/-- Split a character list on the `/` separator, keeping empty
segments (as `strings.Split` would). -/
def splitSeg : List Char → List (List Char)
  | [] => [[]]
  | c :: cs =>
    if c = '/' then [] :: splitSeg cs
    else
      match splitSeg cs with
      | [] => [[c]]
      | s :: rest => (c :: s) :: rest

/-- Segment-level core of Go's `filepath.Clean`: drop empty and `.`
segments; a `..` segment pops the previous real segment when one is
available, is dropped at the root, and is kept (accumulated in front)
in a relative path with nothing left to pop. -/
def cleanSegs (rooted : Bool) (out : List (List Char)) : List (List Char) → List (List Char)
  | [] => out
  | seg :: rest =>
    if seg.isEmpty || seg == ['.'] then cleanSegs rooted out rest
    else if seg == ['.', '.'] then
      if !out.isEmpty && out.getLast? != some ['.', '.'] then
        cleanSegs rooted out.dropLast rest
      else if rooted then cleanSegs rooted out rest
      else cleanSegs rooted (out ++ [seg]) rest
    else cleanSegs rooted (out ++ [seg]) rest

/-- Go's `filepath.Clean` for Unix paths. -/
def goClean (path : String) : String :=
  if path = "" then "."
  else
    let cs := path.toList
    let rooted := listPre ['/'] cs
    let joined := List.intercalate ['/'] (cleanSegs rooted [] (splitSeg cs))
    let res := if rooted then '/' :: joined else joined
    if res.isEmpty then (if rooted then "/" else ".") else String.mk res

/-- Helper for `goExt`: walk the reversed path; a `.` before any `/`
yields the extension, a `/` or the start of the string yields none.
`acc` holds, in original order, the characters already passed. -/
def goExtAux : List Char → List Char → String
  | [], _ => ""
  | c :: rest, acc =>
    if c = '/' then ""
    else if c = '.' then String.mk ('.' :: acc)
    else goExtAux rest (c :: acc)

/-- Go's `filepath.Ext`: the suffix starting at the final dot of the
final path element, or `""` when there is no dot. -/
def goExt (path : String) : String := goExtAux path.toList.reverse []

/-- Go's `filepath.IsAbs` on Unix: the path starts with `/`. -/
def goIsAbs (path : String) : Bool := listPre ['/'] path.toList

/-- Go's `filepath.Join`: join from the first non-empty element with
`/` and `Clean` the result; all-empty input gives `""`. -/
def goJoin : List String → String
  | [] => ""
  | e :: rest => if e = "" then goJoin rest else goClean (String.intercalate "/" (e :: rest))

/-- Character-level `strings.HasPrefix` on strings. -/
def strHasPre (p s : String) : Bool := listPre p.toList s.toList

/-- Whether some `/`-separated segment of `s` is exactly the
parent-traversal segment `..`.  This is the "contains a
parent-traversal segment" reading of the spec, as opposed to the
code's substring check. -/
def hasParentSeg (s : String) : Bool := decide (['.', '.'] ∈ splitSeg s.toList)

example : goClean "pages/index.html" = "pages/index.html" := by decide
example : goClean "a/../../b" = "../b" := by decide
example : goClean "/../a" = "/a" := by decide
example : goClean "" = "." := by decide
example : goClean "pages//x/./y.html" = "pages/x/y.html" := by decide
example : goExt "pages/index.html" = ".html" := by decide
example : goExt "pages/noext" = "" := by decide
example : goExt "a.d/file" = "" := by decide
example : goIsAbs "/etc/passwd" = true := by decide
example : goJoin ["view", "pages/index.html"] = "view/pages/index.html" := by decide
example : goJoin ["view", "layout", "base.html"] = "view/layout/base.html" := by decide
example : isSubList ['.', '.'] "pages/a..b.html".toList = true := by decide
example : hasParentSeg "pages/a..b.html" = false := by decide
example : hasParentSeg "../x.html" = true := by decide

/-- One filesystem access performed by `render`: an `os.Stat` or a
`template.ParseFiles` (which reads every named file). -/
inductive FsOp
  | stat (path : String)
  | parseFiles (paths : List String)
  deriving DecidableEq

/-- Oracle for the external collaborators of `render`: the filesystem
(which paths exist) and the `html/template` engine (which files parse,
and whether executing a parsed set against a payload succeeds).
`execBaseOk base page data` abstracts
`ParseFiles(base, page)` followed by `ExecuteTemplate(w, "base", data)`;
`execOk page data` abstracts `ParseFiles(page)` followed by
`Execute(w, data)`. -/
structure TemplWorld (α : Type) where
  fileExists : String → Bool
  parseOk : String → Bool
  execBaseOk : String → String → α → Bool
  execOk : String → α → Bool

/-- Go's `template.ParseFiles` succeeds iff every named file exists and
parses. -/
def parseFilesOk {α : Type} (w : TemplWorld α) (paths : List String) : Bool :=
  paths.all fun p => w.fileExists p && w.parseOk p

/-- The bytes a handler wrote into the response, by provenance.
`err msg` is the message handed to Go's `http.Error` (whose `Fprintln`
appends one trailing newline, elided here).  `composed base page data`
is the output of `ExecuteTemplate(w, "base", data)` on the set parsed
from `ParseFiles(base, page)`; `standalone page data` is the output of
`Execute(w, data)` on the single-file parse of `page`.  The
`*Partial` forms are a failed execution: a possibly truncated template
prefix followed by the `http.Error` message.  `rawFile` is a static
file served verbatim by `http.FileServer`. -/
inductive RespBody (α : Type)
  | err (msg : String)
  | composed (basePath pagePath : String) (data : α)
  | composedPartial (basePath pagePath : String) (data : α) (msg : String)
  | standalone (path : String) (data : α)
  | standalonePartial (path : String) (data : α) (msg : String)
  | rawFile (name content : String)
  deriving DecidableEq

/-- An HTTP response as observed by the client: status code, final
header values, body. -/
structure Response (α : Type) where
  status : Nat
  headers : String → Option String
  body : RespBody α

/-- Header map update, `Header().Set`. -/
def headerSet (h : String → Option String) (k v : String) : String → Option String :=
  fun k' => if k' = k then some v else h k'

/-- Header map deletion, `Header().Del`. -/
def headerDel (h : String → Option String) (k : String) : String → Option String :=
  fun k' => if k' = k then none else h k'

/-- Header state after `render`'s opening
`w.Header().Set("Content-Type", "text/html; charset=utf-8")`, the
first statement of the function on every path. -/
def htmlHeaders : String → Option String :=
  headerSet (fun _ => none) "Content-Type" "text/html; charset=utf-8"

/-- Header effect of Go's `net/http.Error`: it deletes
`Content-Length`, sets `Content-Type: text/plain; charset=utf-8` and
`X-Content-Type-Options: nosniff`. -/
def httpErrHeaders (h : String → Option String) : String → Option String :=
  headerSet
    (headerSet (headerDel h "Content-Length") "Content-Type" "text/plain; charset=utf-8")
    "X-Content-Type-Options" "nosniff"

/-- Go's `net/http.Error`: error headers, the given status code, and
the message as body. -/
def httpError {α : Type} (h : String → Option String) (msg : String) (code : Nat) : Response α :=
  { status := code, headers := httpErrHeaders h, body := RespBody.err msg }

/-- The shared base-layout path, `filepath.Join("view", "layout", "base.html")`. -/
def baseLayoutPath : String := goJoin ["view", "layout", "base.html"]

/-- The fallback tail of `render`: `template.ParseFiles(fullPath)` then
`tmpl.Execute(w, data)`, each failure answered by `http.Error` with
status 500.  `tr` is the filesystem-access trace accumulated before the
fallback (the `os.Stat` when the `pages/` branch was entered). -/
def renderStandalone {α : Type} (w : TemplWorld α) (fullPath : String) (data : α)
    (tr : List FsOp) : Response α × List FsOp :=
  if parseFilesOk w [fullPath] then
    if w.execOk fullPath data then
      ({ status := 200, headers := htmlHeaders, body := RespBody.standalone fullPath data },
       tr ++ [FsOp.parseFiles [fullPath]])
    else
      ({ status := 500, headers := httpErrHeaders htmlHeaders,
         body := RespBody.standalonePartial fullPath data "render error" },
       tr ++ [FsOp.parseFiles [fullPath]])
  else
    (httpError htmlHeaders "template error" 500, tr ++ [FsOp.parseFiles [fullPath]])

/-- The `pages/` branch of `render`: `os.Stat(fullPath)`; on success,
`template.ParseFiles(base, fullPath)` then
`tmpl.ExecuteTemplate(w, "base", data)`; a failed stat falls through to
the standalone fallback on the same path. -/
def renderPages {α : Type} (w : TemplWorld α) (fullPath : String) (data : α) :
    Response α × List FsOp :=
  if w.fileExists fullPath then
    if parseFilesOk w [baseLayoutPath, fullPath] then
      if w.execBaseOk baseLayoutPath fullPath data then
        ({ status := 200, headers := htmlHeaders,
           body := RespBody.composed baseLayoutPath fullPath data },
         [FsOp.stat fullPath, FsOp.parseFiles [baseLayoutPath, fullPath]])
      else
        ({ status := 500, headers := httpErrHeaders htmlHeaders,
           body := RespBody.composedPartial baseLayoutPath fullPath data "render error" },
         [FsOp.stat fullPath, FsOp.parseFiles [baseLayoutPath, fullPath]])
    else
      (httpError htmlHeaders "template error" 500,
       [FsOp.stat fullPath, FsOp.parseFiles [baseLayoutPath, fullPath]])
  else
    renderStandalone w fullPath data [FsOp.stat fullPath]

/-- The server's `render` function, paired with the trace of its
filesystem accesses.  Mirrors `main.go`: set `Content-Type` (threaded
as `htmlHeaders`), `Clean` the name, reject a non-`.html` extension,
reject a `..` substring or an absolute path, join under `view/`, take
the `pages/` branch on that prefix, otherwise the standalone
fallback. -/
def render {α : Type} (w : TemplWorld α) (filename : String) (data : α) :
    Response α × List FsOp :=
  if goExt (goClean filename) ≠ ".html" then
    (httpError htmlHeaders "not found" 404, [])
  else if isSubList ['.', '.'] (goClean filename).toList || goIsAbs (goClean filename) then
    (httpError htmlHeaders "not found" 404, [])
  else if strHasPre "pages/" (goClean filename) then
    renderPages w (goJoin ["view", goClean filename]) data
  else
    renderStandalone w (goJoin ["view", goClean filename]) data []

/-- The template data payload, `data any` in Go: `nil` for the fixed
pages, or the `map[string]any` built by the blog-detail handler
(string-valued entries suffice for this server). -/
abbrev Payload := Option (List (String × String))

/-- An inbound request as the handlers observe it: the URL path and the
result of `req.BasicAuth()` — `none` when the Authorization header is
absent or malformed, `some (user, pass)` when it decodes. -/
structure Request where
  path : String
  basicAuth : Option (String × String)
  deriving DecidableEq

/-- Expected username: `os.Getenv("BASIC_USER")`, defaulting to
`admin` when unset or empty (`Getenv` returns `""` for both). -/
def resolveUser (env : String → String) : String :=
  if env "BASIC_USER" = "" then "admin" else env "BASIC_USER"

/-- Expected password: `os.Getenv("BASIC_PASS")`, defaulting to the
built-in `0987654321` when unset or empty. -/
def resolvePass (env : String → String) : String :=
  if env "BASIC_PASS" = "" then "0987654321" else env "BASIC_PASS"

/-- The 401 reply of `authMiddleware`: `WWW-Authenticate` challenge set
first, then `http.Error(w, http.StatusText(401), 401)` with
`StatusText(401) = "Unauthorized"`. -/
def unauthorizedResp {α : Type} : Response α :=
  httpError (headerSet (fun _ => none) "WWW-Authenticate" "Basic realm=Restricted")
    "Unauthorized" 401

/-- The server's `authMiddleware`: resolve the credential pair at
construction, then per request compare `req.BasicAuth()` to it with
exact string equality; forward on a match, otherwise reply 401 without
invoking the wrapped handler. -/
def authMiddleware {α : Type} (env : String → String) (next : Request → Response α)
    (req : Request) : Response α :=
  match req.basicAuth with
  | none => unauthorizedResp
  | some (user, pass) =>
    if user ≠ resolveUser env ∨ pass ≠ resolvePass env then unauthorizedResp
    else next req

/-- The static HTTP routes registered in `main`, as
(pattern, page-identifier) pairs.  Every one of them is an exact-path
`HandleFunc` whose handler passes a `nil` payload; gorilla/mux patterns
are disjoint here, so registration order is immaterial. -/
def routeTable : List (String × String) :=
  [("/", "pages/index.html"),
   ("/about-us", "pages/about-us.html"),
   ("/services", "pages/our-services.html"),
   ("/training", "pages/training.html"),
   ("/blog", "pages/bloglisting.html"),
   ("/contact", "pages/contact_us.html"),
   ("/linux-commands", "pages/linux-commands.html"),
   ("/linux-directory-structure", "pages/linux-directory-structure.html"),
   ("/linux-permissions", "pages/linux-permissions.html"),
   ("/golang-project-structure", "pages/golang-project-structure.html"),
   ("/golang-create-project", "pages/golang-create-project.html"),
   ("/server", "pages/server.html"),
   ("/under-development", "under-development.html"),
   ("/golang", "pages/roadmaps/golang-roadmap.html"),
   ("/devops", "pages/roadmaps/devops-roadmap.html"),
   ("/project-manager", "pages/project-manager-roadmap.html"),
   ("/ai-ml", "pages/ai-ml-roadmap.html")]

/-- gorilla/mux matching for the pattern `/blog/{slug}`: the path is
`/blog/` followed by exactly one non-empty segment (no further `/`),
and `{slug}` captures that segment verbatim. -/
def matchBlogSlug (path : String) : Option String :=
  if listPre "/blog/".toList path.toList then
    if !(path.toList.drop 6).isEmpty && !(path.toList.drop 6).contains '/' then
      some (String.mk (path.toList.drop 6))
    else none
  else none

/-- `http.StripPrefix`: drop the prefix from the path. -/
def stripPre (p s : String) : String := String.mk (s.toList.drop p.toList.length)

/-- `http.FileServer(http.Dir("public"))` abstracted over the contents
`pub` of the `public` directory: an existing file is answered verbatim
with its bytes, a missing one by the standard `404 page not found`
error reply. -/
def staticServe (pub : String → Option String) (name : String) : Response Payload :=
  match pub name with
  | some content =>
    { status := 200, headers := fun _ => none, body := RespBody.rawFile name content }
  | none => httpError (fun _ => none) "404 page not found" 404

/-- The mux dispatch registered in `main`: the `/public/` prefix mount
(stripped, then served from the `public` directory), the parameterized
`/blog/{slug}` route (payload `{"Slug": slug}`), the exact-path routes
of `routeTable` (payload `nil`), and the router's default not-found
reply otherwise. -/
def routeDispatch (w : TemplWorld Payload) (pub : String → Option String)
    (req : Request) : Response Payload :=
  if strHasPre "/public/" req.path then
    staticServe pub (stripPre "/public/" req.path)
  else
    match matchBlogSlug req.path with
    | some slug => (render w "pages/blogDetails.html" (some [("Slug", slug)])).1
    | none =>
      match routeTable.lookup req.path with
      | some ident => (render w ident none).1
      | none => httpError (fun _ => none) "404 page not found" 404

/-- The whole request pipeline: `r.Use(authMiddleware)` wraps every
route of the dispatcher, static mount included. -/
def app (env : String → String) (w : TemplWorld Payload) (pub : String → Option String)
    (req : Request) : Response Payload :=
  authMiddleware env (routeDispatch w pub) req

/-- A concrete world in which no file exists and every template is
well formed. -/
def wEmpty : TemplWorld Payload :=
  { fileExists := fun _ => false, parseOk := fun _ => true,
    execBaseOk := fun _ _ _ => true, execOk := fun _ _ => true }

/-- A concrete world in which every file exists and every template is
well formed. -/
def wAll : TemplWorld Payload :=
  { fileExists := fun _ => true, parseOk := fun _ => true,
    execBaseOk := fun _ _ _ => true, execOk := fun _ _ => true }

theorem splitSeg_head_pre (l : List Char) :
    ∃ s rest, splitSeg l = s :: rest ∧ listPre s l = true := by
  induction l with
  | nil => exact ⟨[], [], rfl, rfl⟩
  | cons c cs ih =>
    by_cases hc : c = '/'
    · exact ⟨[], splitSeg cs, by simp [splitSeg, hc], rfl⟩
    · obtain ⟨s, rest, hs, hp⟩ := ih
      refine ⟨c :: s, rest, by simp [splitSeg, hc, hs], ?_⟩
      simp [listPre, hp]

theorem listPre_isSubList {pat l : List Char} (h : listPre pat l = true) :
    isSubList pat l = true := by
  cases l with
  | nil => simpa [isSubList] using h
  | cons c tl => simp [isSubList, h]

theorem isSubList_cons {pat l : List Char} (c : Char) (h : isSubList pat l = true) :
    isSubList pat (c :: l) = true := by
  simp [isSubList, h]

theorem mem_splitSeg_isSubList {l x : List Char} (h : x ∈ splitSeg l) :
    isSubList x l = true := by
  induction l with
  | nil =>
    have hx : x = [] := by simpa [splitSeg] using h
    simp [hx, isSubList, listPre]
  | cons c cs ih =>
    by_cases hc : c = '/'
    · rw [show splitSeg (c :: cs) = [] :: splitSeg cs by simp [splitSeg, hc]] at h
      rcases List.mem_cons.mp h with hx | hx
      · subst hx; exact listPre_isSubList rfl
      · exact isSubList_cons c (ih hx)
    · obtain ⟨s, rest, hs, hp⟩ := splitSeg_head_pre cs
      rw [show splitSeg (c :: cs) = (c :: s) :: rest by simp [splitSeg, hc, hs]] at h
      rcases List.mem_cons.mp h with hx | hx
      · subst hx
        exact listPre_isSubList (by simp [listPre, hp])
      · exact isSubList_cons c (ih (hs ▸ List.mem_cons_of_mem s hx))

theorem hasParentSeg_isSubList {s : String} (h : hasParentSeg s = true) :
    isSubList ['.', '.'] s.toList = true :=
  mem_splitSeg_isSubList (of_decide_eq_true h)

/-- C1: a page identifier whose cleaned form lacks the `.html`
extension, contains a parent-traversal segment, or is absolute, is
answered 404 with body `not found`, and `render` performs no
filesystem access for it. -/
theorem C1_invalid_identifier_rejected {α : Type} (w : TemplWorld α) (filename : String)
    (data : α)
    (h : goExt (goClean filename) ≠ ".html" ∨ hasParentSeg (goClean filename) = true
       ∨ goIsAbs (goClean filename) = true) :
    (render w filename data).1.status = 404
    ∧ (render w filename data).1.body = RespBody.err "not found"
    ∧ (render w filename data).2 = [] := by
  by_cases hext : goExt (goClean filename) = ".html"
  · have hcond :
        (isSubList ['.', '.'] (goClean filename).toList || goIsAbs (goClean filename)) = true := by
      rcases h with h1 | h2 | h3
      · exact absurd hext h1
      · simp only [Bool.or_eq_true]
        exact Or.inl (hasParentSeg_isSubList h2)
      · simp only [Bool.or_eq_true]
        exact Or.inr h3
    unfold render
    rw [if_neg (by simp [hext]), if_pos hcond]
    exact ⟨rfl, rfl, rfl⟩
  · unfold render
    rw [if_pos hext]
    exact ⟨rfl, rfl, rfl⟩

theorem C1_invalid_identifier_rejected_witness :
    (goExt (goClean "../x.html") ≠ ".html" ∨ hasParentSeg (goClean "../x.html") = true
       ∨ goIsAbs (goClean "../x.html") = true)
    ∧ ((render wEmpty "../x.html" (none : Payload)).1.status = 404
       ∧ (render wEmpty "../x.html" (none : Payload)).1.body = RespBody.err "not found"
       ∧ (render wEmpty "../x.html" (none : Payload)).2 = []) :=
  ⟨by decide, C1_invalid_identifier_rejected wEmpty "../x.html" none (by decide)⟩

/-- C10: the traversal check is a substring check: any identifier whose
cleaned form contains the two-character sequence `..` anywhere — even
inside an ordinary file name with no path segment equal to `..` — is
answered 404 with body `not found` before any filesystem access. -/
theorem C10_substring_traversal_check {α : Type} (w : TemplWorld α) (filename : String)
    (data : α) (h : isSubList ['.', '.'] (goClean filename).toList = true) :
    (render w filename data).1.status = 404
    ∧ (render w filename data).1.body = RespBody.err "not found"
    ∧ (render w filename data).2 = [] := by
  by_cases hext : goExt (goClean filename) = ".html"
  · unfold render
    rw [if_neg (by simp [hext]),
      if_pos (show (isSubList ['.', '.'] (goClean filename).toList
        || goIsAbs (goClean filename)) = true by simp only [Bool.or_eq_true]; exact Or.inl h)]
    exact ⟨rfl, rfl, rfl⟩
  · unfold render
    rw [if_pos hext]
    exact ⟨rfl, rfl, rfl⟩

theorem renderStandalone_body {α : Type} (w : TemplWorld α) (fullPath : String) (data : α)
    (tr : List FsOp) :
    (renderStandalone w fullPath data tr).1.body = RespBody.standalone fullPath data
    ∨ (renderStandalone w fullPath data tr).1.body = RespBody.err "template error"
    ∨ (renderStandalone w fullPath data tr).1.body
        = RespBody.standalonePartial fullPath data "render error" := by
  unfold renderStandalone
  split
  · split
    · exact Or.inl rfl
    · exact Or.inr (Or.inr rfl)
  · exact Or.inr (Or.inl rfl)

/-- C2 (amended): when the identifier does not begin with `pages/` or
the page file is missing at check time, `render` runs the standalone
fallback on the single resolved file — the base layout's presence
plays no part in this decision. -/
theorem C2_standalone_fallback {α : Type} (w : TemplWorld α) (filename : String) (data : α)
    (hext : goExt (goClean filename) = ".html")
    (hsub : isSubList ['.', '.'] (goClean filename).toList = false)
    (habs : goIsAbs (goClean filename) = false)
    (hdec : strHasPre "pages/" (goClean filename) = false
          ∨ w.fileExists (goJoin ["view", goClean filename]) = false) :
    render w filename data
      = renderStandalone w (goJoin ["view", goClean filename]) data
          (if strHasPre "pages/" (goClean filename) then
             [FsOp.stat (goJoin ["view", goClean filename])] else [])
    ∧ ((render w filename data).1.body
         = RespBody.standalone (goJoin ["view", goClean filename]) data
       ∨ (render w filename data).1.body = RespBody.err "template error"
       ∨ (render w filename data).1.body
         = RespBody.standalonePartial (goJoin ["view", goClean filename]) data
             "render error") := by
  have hmain : render w filename data
      = renderStandalone w (goJoin ["view", goClean filename]) data
          (if strHasPre "pages/" (goClean filename) then
             [FsOp.stat (goJoin ["view", goClean filename])] else []) := by
    unfold render
    rw [if_neg (by simp [hext]), if_neg (by rw [hsub, habs]; decide)]
    by_cases hpre : strHasPre "pages/" (goClean filename) = true
    · rw [if_pos hpre, if_pos hpre]
      have hfe : w.fileExists (goJoin ["view", goClean filename]) = false := by
        rcases hdec with hd | hd
        · simp [hpre] at hd
        · exact hd
      unfold renderPages
      rw [if_neg (by simp [hfe])]
    · rw [if_neg hpre, if_neg hpre]
  exact ⟨hmain, by rw [hmain]; exact renderStandalone_body w _ data _⟩

theorem C2_standalone_fallback_witness :
    goExt (goClean "under-development.html") = ".html"
    ∧ isSubList ['.', '.'] (goClean "under-development.html").toList = false
    ∧ goIsAbs (goClean "under-development.html") = false
    ∧ (strHasPre "pages/" (goClean "under-development.html") = false
       ∨ wEmpty.fileExists (goJoin ["view", goClean "under-development.html"]) = false)
    ∧ (render wEmpty "under-development.html" (none : Payload)
        = renderStandalone wEmpty (goJoin ["view", goClean "under-development.html"]) none
            (if strHasPre "pages/" (goClean "under-development.html") then
               [FsOp.stat (goJoin ["view", goClean "under-development.html"])] else [])
       ∧ ((render wEmpty "under-development.html" (none : Payload)).1.body
            = RespBody.standalone (goJoin ["view", goClean "under-development.html"]) none
          ∨ (render wEmpty "under-development.html" (none : Payload)).1.body
            = RespBody.err "template error"
          ∨ (render wEmpty "under-development.html" (none : Payload)).1.body
            = RespBody.standalonePartial (goJoin ["view", goClean "under-development.html"])
                none "render error")) :=
  ⟨by decide, by decide, by decide, by decide,
   C2_standalone_fallback wEmpty "under-development.html" none (by decide) (by decide)
     (by decide) (by decide)⟩

/-- A concrete world in which the page file exists but the base layout
file is missing; every present template is well formed. -/
def wNoBase : TemplWorld Payload :=
  { fileExists := fun p => p == "view/pages/index.html", parseOk := fun _ => true,
    execBaseOk := fun _ _ _ => true, execOk := fun _ _ => true }

/-- C2 counterexample: with `pages/index.html` present but the base
layout missing — a case the claim counts as a false layout decision —
`render` does not run the standalone fallback: it attempts the
two-file composed parse and answers 500 `template error`. -/
theorem C2_layout_missing_cex :
    strHasPre "pages/" (goClean "pages/index.html") = true
    ∧ wNoBase.fileExists (goJoin ["view", goClean "pages/index.html"]) = true
    ∧ wNoBase.fileExists baseLayoutPath = false
    ∧ (render wNoBase "pages/index.html" (none : Payload)).1.status = 500
    ∧ (render wNoBase "pages/index.html" (none : Payload)).1.body
        = RespBody.err "template error"
    ∧ (render wNoBase "pages/index.html" (none : Payload)).2
        = [FsOp.stat "view/pages/index.html",
           FsOp.parseFiles ["view/layout/base.html", "view/pages/index.html"]]
    ∧ (render wNoBase "pages/index.html" (none : Payload)).1.body
        ≠ RespBody.standalone "view/pages/index.html" (none : Payload) := by decide

/-- C3: under `pages/` with the page and the base layout both present
(and well formed), `render` parses the layout together with the page
as one set and executes the template named `base` against the payload;
the body is the composed output, a different observable from the
page's standalone output. -/
theorem C3_composed_layout {α : Type} (w : TemplWorld α) (filename : String) (data : α)
    (hext : goExt (goClean filename) = ".html")
    (hsub : isSubList ['.', '.'] (goClean filename).toList = false)
    (habs : goIsAbs (goClean filename) = false)
    (hpre : strHasPre "pages/" (goClean filename) = true)
    (hpage : w.fileExists (goJoin ["view", goClean filename]) = true)
    (hbase : w.fileExists baseLayoutPath = true)
    (hparseBase : w.parseOk baseLayoutPath = true)
    (hparsePage : w.parseOk (goJoin ["view", goClean filename]) = true)
    (hexec : w.execBaseOk baseLayoutPath (goJoin ["view", goClean filename]) data = true) :
    (render w filename data).1
      = { status := 200, headers := htmlHeaders,
          body := RespBody.composed baseLayoutPath (goJoin ["view", goClean filename]) data }
    ∧ (render w filename data).2
      = [FsOp.stat (goJoin ["view", goClean filename]),
         FsOp.parseFiles [baseLayoutPath, goJoin ["view", goClean filename]]]
    ∧ RespBody.composed baseLayoutPath (goJoin ["view", goClean filename]) data
        ≠ RespBody.standalone (goJoin ["view", goClean filename]) data := by
  have hparse :
      parseFilesOk w [baseLayoutPath, goJoin ["view", goClean filename]] = true := by
    simp [parseFilesOk, hbase, hpage, hparseBase, hparsePage]
  unfold render
  rw [if_neg (by simp [hext]), if_neg (by rw [hsub, habs]; decide), if_pos hpre]
  unfold renderPages
  rw [if_pos hpage, if_pos hparse, if_pos hexec]
  exact ⟨rfl, rfl, by simp⟩

theorem C3_composed_layout_witness :
    wAll.fileExists (goJoin ["view", goClean "pages/index.html"]) = true
    ∧ wAll.fileExists baseLayoutPath = true
    ∧ ((render wAll "pages/index.html" (some [] : Payload)).1
        = { status := 200, headers := htmlHeaders,
            body := RespBody.composed baseLayoutPath
              (goJoin ["view", goClean "pages/index.html"]) (some [] : Payload) }
       ∧ (render wAll "pages/index.html" (some [] : Payload)).2
        = [FsOp.stat (goJoin ["view", goClean "pages/index.html"]),
           FsOp.parseFiles [baseLayoutPath, goJoin ["view", goClean "pages/index.html"]]]
       ∧ RespBody.composed baseLayoutPath (goJoin ["view", goClean "pages/index.html"])
           (some [] : Payload)
          ≠ RespBody.standalone (goJoin ["view", goClean "pages/index.html"])
              (some [] : Payload)) :=
  ⟨by decide, by decide,
   C3_composed_layout wAll "pages/index.html" (some []) (by decide) (by decide) (by decide)
     (by decide) (by decide) (by decide) (by decide) (by decide) (by decide)⟩

/-- C5: under `pages/` with the page file missing, `render` does not
answer 404: it stats the page, falls through to the standalone parse
of the same missing file, and that parse failure yields 500 with body
`template error`. -/
theorem C5_missing_page_500 {α : Type} (w : TemplWorld α) (filename : String) (data : α)
    (hext : goExt (goClean filename) = ".html")
    (hsub : isSubList ['.', '.'] (goClean filename).toList = false)
    (habs : goIsAbs (goClean filename) = false)
    (hpre : strHasPre "pages/" (goClean filename) = true)
    (hmiss : w.fileExists (goJoin ["view", goClean filename]) = false) :
    (render w filename data).1.status = 500
    ∧ (render w filename data).1.body = RespBody.err "template error"
    ∧ (render w filename data).1.status ≠ 404
    ∧ (render w filename data).2
      = [FsOp.stat (goJoin ["view", goClean filename]),
         FsOp.parseFiles [goJoin ["view", goClean filename]]] := by
  have hparse : parseFilesOk w [goJoin ["view", goClean filename]] = false := by
    simp [parseFilesOk, hmiss]
  unfold render
  rw [if_neg (by simp [hext]), if_neg (by rw [hsub, habs]; decide), if_pos hpre]
  unfold renderPages
  rw [if_neg (by simp [hmiss])]
  unfold renderStandalone
  rw [if_neg (by simp [hparse])]
  exact ⟨rfl, rfl, (by decide : (500 : Nat) ≠ 404), rfl⟩

theorem C5_missing_page_500_witness :
    strHasPre "pages/" (goClean "pages/index.html") = true
    ∧ wEmpty.fileExists (goJoin ["view", goClean "pages/index.html"]) = false
    ∧ ((render wEmpty "pages/index.html" (none : Payload)).1.status = 500
       ∧ (render wEmpty "pages/index.html" (none : Payload)).1.body
           = RespBody.err "template error"
       ∧ (render wEmpty "pages/index.html" (none : Payload)).1.status ≠ 404
       ∧ (render wEmpty "pages/index.html" (none : Payload)).2
           = [FsOp.stat (goJoin ["view", goClean "pages/index.html"]),
              FsOp.parseFiles [goJoin ["view", goClean "pages/index.html"]]]) :=
  ⟨by decide, by decide,
   C5_missing_page_500 wEmpty "pages/index.html" none (by decide) (by decide) (by decide)
     (by decide) (by decide)⟩

theorem C10_substring_traversal_check_witness :
    hasParentSeg (goClean "pages/a..b.html") = false
    ∧ isSubList ['.', '.'] (goClean "pages/a..b.html").toList = true
    ∧ ((render wEmpty "pages/a..b.html" (none : Payload)).1.status = 404
       ∧ (render wEmpty "pages/a..b.html" (none : Payload)).1.body = RespBody.err "not found"
       ∧ (render wEmpty "pages/a..b.html" (none : Payload)).2 = []) :=
  ⟨by decide, by decide,
   C10_substring_traversal_check wEmpty "pages/a..b.html" none (by decide)⟩

/-- An environment with neither credential variable set. -/
def env0 : String → String := fun _ => ""

/-- A stand-in wrapped handler for the middleware theorems. -/
def next0 : Request → Response Payload :=
  fun _ => { status := 200, headers := fun _ => none, body := RespBody.rawFile "x" "y" }

/-- A request carrying the default credential pair. -/
def req0 : Request := { path := "/", basicAuth := some ("admin", "0987654321") }

/-- A request carrying a wrong password. -/
def reqBad : Request := { path := "/", basicAuth := some ("admin", "wrong") }

/-- A `public` directory holding one image file. -/
def pub1 : String → Option String :=
  fun n => if n = "images/logo.png" then some "PNGBYTES" else none

/-- An authenticated request for a static asset. -/
def reqPub : Request :=
  { path := "/public/images/logo.png", basicAuth := some ("admin", "0987654321") }

/-- An unauthenticated request for the same static asset. -/
def reqPubAnon : Request := { path := "/public/images/logo.png", basicAuth := none }

/-- An authenticated blog-detail request. -/
def reqBlog : Request :=
  { path := "/blog/my-first-post", basicAuth := some ("admin", "0987654321") }

/-- C4: the Basic-Auth gate — absent, malformed, or mismatching
credentials get the 401 challenge reply and the wrapped handler is
never invoked; an exact match forwards the request unchanged; the
credential pair comes from `BASIC_USER`/`BASIC_PASS` with built-in
defaults for unset or empty values. -/
theorem C4_auth_gate {α : Type} (env : String → String) (next next2 : Request → Response α)
    (req : Request) :
    (req.basicAuth = none → authMiddleware env next req = unauthorizedResp)
    ∧ (∀ u p, req.basicAuth = some (u, p) →
        (u ≠ resolveUser env ∨ p ≠ resolvePass env) →
        authMiddleware env next req = unauthorizedResp
        ∧ authMiddleware env next req = authMiddleware env next2 req)
    ∧ (req.basicAuth = some (resolveUser env, resolvePass env) →
        authMiddleware env next req = next req)
    ∧ (unauthorizedResp : Response α).status = 401
    ∧ (unauthorizedResp : Response α).headers "WWW-Authenticate"
        = some "Basic realm=Restricted"
    ∧ (unauthorizedResp : Response α).body = RespBody.err "Unauthorized"
    ∧ (env "BASIC_USER" = "" → resolveUser env = "admin")
    ∧ (env "BASIC_PASS" = "" → resolvePass env = "0987654321") := by
  refine ⟨?_, ?_, ?_, rfl, rfl, rfl, ?_, ?_⟩
  · intro h
    simp only [authMiddleware, h]
  · intro u p h hne
    constructor
    · simp only [authMiddleware, h]
      rw [if_pos hne]
    · simp only [authMiddleware, h]
      rw [if_pos hne, if_pos hne]
  · intro h
    simp only [authMiddleware, h]
    rw [if_neg (by simp)]
  · intro h
    simp [resolveUser, h]
  · intro h
    simp [resolvePass, h]

theorem C4_auth_gate_witness :
    req0.basicAuth = some (resolveUser env0, resolvePass env0)
    ∧ authMiddleware env0 next0 req0 = next0 req0
    ∧ authMiddleware env0 next0 reqBad = unauthorizedResp
    ∧ authMiddleware env0 next0 { path := "/", basicAuth := none } = unauthorizedResp :=
  ⟨by decide,
   (C4_auth_gate env0 next0 next0 req0).2.2.1 (by decide),
   ((C4_auth_gate env0 next0 next0 reqBad).2.1 "admin" "wrong" (by decide)
     (Or.inr (by decide))).1,
   (C4_auth_gate env0 next0 next0 { path := "/", basicAuth := none }).1 (by decide)⟩

theorem htmlHeaders_ct : htmlHeaders "Content-Type" = some "text/html; charset=utf-8" := rfl

theorem httpErrHeaders_ct (h : String → Option String) :
    httpErrHeaders h "Content-Type" = some "text/plain; charset=utf-8" := rfl

/-- C6 (amended): `render` sets `Content-Type: text/html; charset=utf-8`
first on every call; on a successful render that value is final, while
on the 404 and 500 paths `http.Error` overrides it to
`text/plain; charset=utf-8` (together with status and body), not the
status code alone. -/
theorem C6_content_type_final {α : Type} (w : TemplWorld α) (filename : String) (data : α) :
    ((render w filename data).1.status = 200 →
      (render w filename data).1.headers "Content-Type" = some "text/html; charset=utf-8")
    ∧ ((render w filename data).1.status ≠ 200 →
      (render w filename data).1.headers "Content-Type" = some "text/plain; charset=utf-8")
    ∧ ((render w filename data).1.status = 200 ∨ (render w filename data).1.status = 404
       ∨ (render w filename data).1.status = 500) := by
  have key : ((render w filename data).1.headers = htmlHeaders
        ∧ (render w filename data).1.status = 200)
      ∨ ((render w filename data).1.headers = httpErrHeaders htmlHeaders
        ∧ ((render w filename data).1.status = 404
           ∨ (render w filename data).1.status = 500)) := by
    unfold render renderPages renderStandalone
    repeat' split
    all_goals
      first
      | exact Or.inl ⟨rfl, rfl⟩
      | exact Or.inr ⟨rfl, Or.inl rfl⟩
      | exact Or.inr ⟨rfl, Or.inr rfl⟩
  rcases key with ⟨hh, hs⟩ | ⟨hh, hs⟩
  · refine ⟨fun _ => ?_, fun hne => absurd hs hne, Or.inl hs⟩
    rw [hh]; exact htmlHeaders_ct
  · refine ⟨fun h200 => ?_, fun _ => ?_, Or.inr hs⟩
    · rcases hs with hs | hs
      · rw [hs] at h200; exact absurd h200 (by decide)
      · rw [hs] at h200; exact absurd h200 (by decide)
    · rw [hh]; exact httpErrHeaders_ct htmlHeaders

theorem C6_content_type_final_witness :
    (render wAll "pages/index.html" (none : Payload)).1.status = 200
    ∧ (render wAll "pages/index.html" (none : Payload)).1.headers "Content-Type"
        = some "text/html; charset=utf-8" :=
  ⟨by decide, (C6_content_type_final wAll "pages/index.html" none).1 (by decide)⟩

/-- C6 counterexample: on the 404 path (input `nope`, no `.html`
extension) the final `Content-Type` is `text/plain; charset=utf-8` —
`http.Error` overrode the header, not only the status code. -/
theorem C6_error_overrides_ct_cex :
    (render wEmpty "nope" (none : Payload)).1.status = 404
    ∧ (render wEmpty "nope" (none : Payload)).1.headers "Content-Type"
        = some "text/plain; charset=utf-8"
    ∧ (render wEmpty "nope" (none : Payload)).1.headers "Content-Type"
        ≠ some "text/html; charset=utf-8" := by decide

theorem listPre_cons_ex {a : Char} {l cs : List Char} (h : listPre (a :: l) cs = true) :
    ∃ cs2, cs = a :: cs2 ∧ listPre l cs2 = true := by
  cases cs with
  | nil => simp [listPre] at h
  | cons b bs =>
    simp only [listPre, Bool.and_eq_true, beq_iff_eq] at h
    exact ⟨bs, by rw [h.1], h.2⟩

theorem matchBlogSlug_pre {path slug : String} (h : matchBlogSlug path = some slug) :
    listPre "/blog/".toList path.toList = true := by
  by_cases hb : listPre "/blog/".toList path.toList = true
  · exact hb
  · unfold matchBlogSlug at h
    rw [if_neg hb] at h
    cases h

theorem blog_not_public {path slug : String} (h : matchBlogSlug path = some slug) :
    strHasPre "/public/" path = false := by
  have hb := matchBlogSlug_pre h
  have e : "/blog/".toList = '/' :: 'b' :: "log/".toList := rfl
  rw [e] at hb
  obtain ⟨cs1, hcs1, h2⟩ := listPre_cons_ex hb
  obtain ⟨cs2, hcs2, _⟩ := listPre_cons_ex h2
  unfold strHasPre
  rw [hcs1, hcs2]
  have e2 : "/public/".toList = '/' :: 'p' :: "ublic/".toList := rfl
  rw [e2]
  have hpb : (('p' : Char) == 'b') = false := by decide
  simp [listPre, hpb]

/-- C7: an authenticated request matching `/blog/{slug}` is answered by
`render` on the fixed identifier `pages/blogDetails.html` with a
payload whose `Slug` key is exactly the captured segment. -/
theorem C7_blog_slug (env : String → String) (w : TemplWorld Payload)
    (pub : String → Option String) (req : Request) (slug : String)
    (hmatch : matchBlogSlug req.path = some slug)
    (hauth : req.basicAuth = some (resolveUser env, resolvePass env)) :
    app env w pub req = (render w "pages/blogDetails.html" (some [("Slug", slug)])).1
    ∧ List.lookup "Slug" [("Slug", slug)] = some slug := by
  constructor
  · have hc : ¬(strHasPre "/public/" req.path = true) := by
      rw [blog_not_public hmatch]; decide
    simp only [app, authMiddleware, hauth]
    rw [if_neg (by simp)]
    unfold routeDispatch
    rw [if_neg hc, hmatch]
  · rfl

theorem C7_blog_slug_witness :
    matchBlogSlug reqBlog.path = some "my-first-post"
    ∧ (app env0 wAll pub1 reqBlog
        = (render wAll "pages/blogDetails.html" (some [("Slug", "my-first-post")])).1
       ∧ List.lookup "Slug" [("Slug", "my-first-post")] = some "my-first-post") :=
  ⟨by decide,
   C7_blog_slug env0 wAll pub1 reqBlog "my-first-post" (by decide) (by decide)⟩

/-- C8: under the `/public/` prefix, an authenticated request is served
the raw file from the `public` directory with the prefix stripped —
never a template-rendered body — while an unauthenticated request gets
the 401 reply with no file bytes. -/
theorem C8_static_mount (env : String → String) (w : TemplWorld Payload)
    (pub : String → Option String) (req : Request)
    (hpub : strHasPre "/public/" req.path = true) :
    (req.basicAuth = some (resolveUser env, resolvePass env) →
       app env w pub req = staticServe pub (stripPre "/public/" req.path)
       ∧ (∀ content, pub (stripPre "/public/" req.path) = some content →
            (app env w pub req).body
              = RespBody.rawFile (stripPre "/public/" req.path) content)
       ∧ (∀ b p d, (app env w pub req).body ≠ RespBody.composed b p d)
       ∧ (∀ p d, (app env w pub req).body ≠ RespBody.standalone p d))
    ∧ (req.basicAuth = none →
       app env w pub req = unauthorizedResp
       ∧ (app env w pub req).body = RespBody.err "Unauthorized")
    ∧ (∀ u p, req.basicAuth = some (u, p) →
       (u ≠ resolveUser env ∨ p ≠ resolvePass env) →
       app env w pub req = unauthorizedResp) := by
  refine ⟨?_, ?_, ?_⟩
  · intro hauth
    have happ : app env w pub req = staticServe pub (stripPre "/public/" req.path) := by
      simp only [app, authMiddleware, hauth]
      rw [if_neg (by simp)]
      unfold routeDispatch
      rw [if_pos hpub]
    refine ⟨happ, ?_, ?_, ?_⟩
    · intro content hc
      rw [happ]
      simp [staticServe, hc]
    · intro b p d
      rw [happ]
      unfold staticServe
      cases hpc : pub (stripPre "/public/" req.path) <;> simp [httpError, hpc]
    · intro p d
      rw [happ]
      unfold staticServe
      cases hpc : pub (stripPre "/public/" req.path) <;> simp [httpError, hpc]
  · intro hnone
    have happ : app env w pub req = unauthorizedResp := by
      simp only [app, authMiddleware, hnone]
    exact ⟨happ, by rw [happ]; rfl⟩
  · intro u p hup hne
    simp only [app, authMiddleware, hup]
    rw [if_pos hne]

theorem C8_static_mount_witness :
    strHasPre "/public/" reqPub.path = true
    ∧ (app env0 wAll pub1 reqPub).body
        = RespBody.rawFile (stripPre "/public/" reqPub.path) "PNGBYTES"
    ∧ app env0 wAll pub1 reqPubAnon = unauthorizedResp :=
  ⟨by decide,
   ((C8_static_mount env0 wAll pub1 reqPub (by decide)).1 (by decide)).2.1 "PNGBYTES"
     (by decide),
   ((C8_static_mount env0 wAll pub1 reqPubAnon (by decide)).2.1 (by decide)).1⟩

/-- C9: the pipeline is deterministic in the request and the
filesystem state — repeating an authenticated request against
unchanged template and asset contents produces the identical
response. -/
theorem C9_deterministic (env : String → String) (w w2 : TemplWorld Payload)
    (pub pub2 : String → Option String) (req req2 : Request)
    (_hcred : req.basicAuth = some (resolveUser env, resolvePass env))
    (hw : w = w2) (hpub : pub = pub2) (hreq : req = req2) :
    app env w pub req = app env w2 pub2 req2 := by
  subst hw; subst hpub; subst hreq; rfl

theorem C9_deterministic_witness :
    app env0 wAll pub1 req0 = app env0 wAll pub1 req0 :=
  C9_deterministic env0 wAll wAll pub1 pub1 req0 req0 (by decide) rfl rfl rfl


